import Mathlib

/-!
Shallow embedding of the orchestration engine of the research-synthesis
agent (current generation: src/core, src/agents, src/api, src/worker;
the planner node, imported by src/core/graph.py as agents.planner, is
embedded from its sibling copy src/backend/app/agent/nodes/planner.py).

Python floats that only ever hold decimal literal scores are embedded as
rationals; Python dicts appearing in this state always have string keys
and are embedded as association lists.
-/

namespace ResearchSynthesis

/-- SubQuery dataclass from src/core/state.py: one sub-query with a source hint. -/
structure SubQuery where
  query : String
  source_type : String
  rationale : String := ""
deriving DecidableEq

/-- RetrievedDocument dataclass from src/core/state.py. -/
structure RetrievedDocument where
  title : String
  content : String
  source : String
  source_type : String
  snippet : String := ""
  credibility_score : ℚ := 1/2
  metadata : List (String × String) := []
deriving DecidableEq

/-- Conflict dataclass from src/core/state.py. -/
structure Conflict where
  claim_a : String
  source_a : String
  claim_b : String
  source_b : String
  description : String
  resolution : String := ""
deriving DecidableEq

/-- SourceMeta dataclass from src/core/state.py. -/
structure SourceMeta where
  url : String
  title : String
  source_type : String
  credibility_score : ℚ := 1/2
deriving DecidableEq

/-- Critique dataclass from src/core/state.py. -/
structure Critique where
  needs_refinement : Bool
  overall_score : ℚ
  gaps : List String := []
  diversity_issues : List String := []
  outdated_concerns : List String := []
  suggestions : List String := []
  summary : String := ""
deriving DecidableEq

/-- Stand-in for an event callback object (the send_event coroutine passed by
the API layer). Only its presence or absence matters to the control flow. -/
structure EventSink where
  id : Nat := 0
deriving DecidableEq

/-- One entry of the payload of a sources event, built in worker_node from a
RetrievedDocument (title, link, snippet, source_type, index). -/
structure SourceEntry where
  title : String
  link : String
  snippet : String
  source_type : String
  index : Nat
deriving DecidableEq

/-- Events emitted through the event channel (src/core/state.py Event types:
steps, sources, answer, done, error, ping). Payloads are embedded only as far
as the claims need them. -/
inductive Event where
  | steps (text status : String)
  | sources (sources : List SourceEntry)
  | answer (text : String)
  | done
  | error (msg : String)
  | ping
deriving DecidableEq

/-- ResearchState TypedDict from src/core/state.py (total=False, so fields
read with state.get and a default are embedded as Option). The field
sendEventKey embeds the optional state dict key with the name of
an underscore followed by send_event: the legacy backend path
(src/backend/app/api/routes.py) places the event callback there, while the
TypedDict itself and the current public path never do. -/
structure ResearchState where
  query : String
  task_id : String := ""
  thread_id : String := ""
  thread_item_id : String := ""
  plan : List SubQuery := []
  documents : List RetrievedDocument := []
  draft : Option String := none
  conflicts : List Conflict := []
  sources_metadata : List SourceMeta := []
  critique : Option Critique := none
  iteration : Option Nat := none
  maxIterations : Option Nat := none
  finalReport : Option String := none
  sendEventKey : Option EventSink := none
deriving DecidableEq

/-- The run-scoped ContextVar from src/core/state.py that carries the
send_event callback (set by the entry points before ainvoke). -/
structure RunContext where
  sendEventVar : Option EventSink := none
deriving DecidableEq

/-- get_send_event from src/core/state.py: returns the ContextVar value. -/
def get_send_event (ctx : RunContext) : Option EventSink :=
  ctx.sendEventVar

/-- set_send_event from src/core/state.py: sets the ContextVar value. -/
def set_send_event (cb : Option EventSink) (ctx : RunContext) : RunContext :=
  { ctx with sendEventVar := cb }

/-! Retriever stage: src/agents/worker.py. -/

/-- The four concrete retrieval tools imported by src/agents/worker.py. -/
inductive Tool where
  | arxiv_search
  | tavily_search
  | wikipedia_search
  | serpapi_search
deriving DecidableEq

/-- One raw search result item as returned by a tool (a dict read with
r.get and defaults in worker_node, hence Option fields). -/
structure RawResult where
  title : Option String := none
  content : Option String := none
  source : Option String := none
  source_type : Option String := none
  snippet : Option String := none
  metadata : Option (List (String × String)) := none
deriving DecidableEq

/-- Outcome of awaiting tool.ainvoke inside the try block of
_execute_tool: a list result, a non-list result, or a raised exception. -/
inductive ToolOutcome where
  | ok (results : List RawResult)
  | nonList
  | raises
deriving DecidableEq

/-- A tool environment: what each tool call returns for a given query.
This abstracts the network behaviour of the four adapters. -/
def ToolEnv : Type := Tool → String → ToolOutcome

/-- Embeds _execute_tool from src/agents/worker.py lines 81-87: a list result
is returned as is, a non-list result becomes the empty list, and a raised
exception is caught and becomes the empty list. -/
def _execute_tool : ToolOutcome → List RawResult
  | .ok results => results
  | .nonList => []
  | .raises => []

/-- Embeds SOURCE_TOOL_MAP.get with the default pair, src/agents/worker.py
lines 13-18 and 41: evidence category to (primary, fallback) tools. -/
def sourceTools (source_type : String) : Tool × Tool :=
  if source_type = "academic" then (.arxiv_search, .serpapi_search)
  else if source_type = "news" then (.tavily_search, .serpapi_search)
  else if source_type = "reference" then (.wikipedia_search, .serpapi_search)
  else if source_type = "general" then (.serpapi_search, .tavily_search)
  else (.serpapi_search, .tavily_search)

/-- Embeds _estimate_credibility from src/agents/worker.py lines 90-91:
a dict lookup on the source type with default 0.50. -/
def _estimate_credibility (source_type : String) : ℚ :=
  if source_type = "academic" then 85/100
  else if source_type = "reference" then 75/100
  else if source_type = "news" then 60/100
  else if source_type = "general" then 50/100
  else 50/100

/-- Embeds the RetrievedDocument construction in worker_node,
src/agents/worker.py lines 47-58: every field read with r.get and a default;
the source_type of the sub-query is only the default when the raw result
does not declare its own. -/
def mkRetrievedDocument (requested_source_type : String) (r : RawResult) :
    RetrievedDocument :=
  { title := r.title.getD ""
    content := r.content.getD ""
    source := r.source.getD ""
    source_type := r.source_type.getD requested_source_type
    snippet := r.snippet.getD ""
    credibility_score := _estimate_credibility (r.source_type.getD requested_source_type)
    metadata := r.metadata.getD [] }

/-- Result of one sub-query unit of the worker loop: its documents, how many
times the fallback tool was invoked, and the events it emitted. -/
structure WorkerUnitResult where
  documents : List RetrievedDocument
  fallback_calls : Nat
  events : List Event
deriving DecidableEq

/-- Embeds the sources payload construction in worker_node,
src/agents/worker.py lines 62-65. -/
def sourcesPayload (documents : List RetrievedDocument) : List SourceEntry :=
  (documents.enum).map fun p =>
    { title := p.2.title, link := p.2.source, snippet := p.2.snippet
      source_type := p.2.source_type, index := p.1 }

/-- Embeds one iteration of the worker loop, src/agents/worker.py lines
27-76: resolve (primary, fallback), invoke primary, invoke fallback once
when the primary result is empty (the fallback slot of the pair is always a
tool object, hence always truthy), build documents, and emit the steps and
sources events only when the send_event callback is present. -/
def runWorkerUnit (env : ToolEnv) (sendEvent : Option EventSink) (i : Nat)
    (sq : SubQuery) : WorkerUnitResult :=
  let tools := sourceTools sq.source_type
  let raw0 := _execute_tool (env tools.1 sq.query)
  let withFallback :=
    if raw0 = [] then (_execute_tool (env tools.2 sq.query), 1) else (raw0, 0)
  let documents := withFallback.1.map (mkRetrievedDocument sq.source_type)
  let startEvents :=
    if sendEvent.isSome then
      [Event.steps (toString i ++ " " ++ sq.source_type ++ " " ++ sq.query) "PENDING"]
    else []
  let endEvents :=
    if sendEvent.isSome then
      [Event.sources (sourcesPayload documents),
       Event.steps (toString i ++ " " ++ sq.source_type ++ " " ++ sq.query) "COMPLETED"]
    else []
  { documents := documents, fallback_calls := withFallback.2
    events := startEvents ++ endEvents }

/-- Embeds worker_node, src/agents/worker.py lines 21-78: reads the
send_event callback from the state key, runs every unit of the plan and
accumulates documents and events in order; returns the documents update
that the reducer appends to state.documents. -/
def worker_node (env : ToolEnv) (s : ResearchState) :
    List RetrievedDocument × List Event :=
  let sendEvent := s.sendEventKey
  (s.plan.enum).foldl
    (fun acc p =>
      let u := runWorkerUnit env sendEvent p.1 p.2
      (acc.1 ++ u.documents, acc.2 ++ u.events))
    ([], [])

/-- Applies the worker update to the state: the documents channel of
ResearchState is Annotated with operator.add, so the returned list is
appended to the existing one. -/
def applyWorker (env : ToolEnv) (s : ResearchState) : ResearchState :=
  { s with documents := s.documents ++ (worker_node env s).1 }

/-! Planner stage: embedded from src/backend/app/agent/nodes/planner.py
(the copy of the planner node present under src; src/core/graph.py imports
the same node as agents.planner). -/

/-- One item of the parsed JSON array returned by the planner model, read
with p.get and defaults in planner_node lines 104-111. -/
structure RawPlanItem where
  query : Option String := none
  source_type : Option String := none
  rationale : Option String := none
deriving DecidableEq

/-- Embeds the parse-failure fallback of planner_node, lines 100-102: a
single general-category item echoing the raw query. -/
def plannerFallbackPlan (query : String) : List RawPlanItem :=
  [{ query := some query, source_type := some "general"
     rationale := some "Fallback to original query" }]

/-- Embeds the plan construction of planner_node, lines 98-111: the parsed
JSON array (or the fallback plan when parsing raised) mapped item by item to
SubQuery with field defaults. The argument parsed is none exactly when
json.loads raised JSONDecodeError on the model response. -/
def plannerSubQueries (query : String) (parsed : Option (List RawPlanItem)) :
    List SubQuery :=
  let raw_plans := match parsed with
    | some l => l
    | none => plannerFallbackPlan query
  raw_plans.map fun p =>
    { query := p.query.getD query
      source_type := p.source_type.getD "general"
      rationale := p.rationale.getD "" }

/-- Embeds the state update of planner_node, lines 54-131: reads iteration
with default 0, writes the new plan and iteration + 1. -/
def planner_node (parsed : Option (List RawPlanItem)) (s : ResearchState) :
    ResearchState :=
  let iteration := s.iteration.getD 0
  { s with plan := plannerSubQueries s.query parsed
           iteration := some (iteration + 1) }

/-! Synthesizer stage: src/agents/synthesizer.py. -/

/-- Embeds the state update of synthesizer_node, src/agents/synthesizer.py:
with no documents it short-circuits to a fixed no-results report with no
conflicts; otherwise the draft is the streamed model text, the conflicts are
whatever _extract_conflicts parsed out of that text (supplied here as an
argument, standing for the parse of the model output), and sources_metadata
is rebuilt from the documents. -/
def synthesizer_node (streamed : String) (parsedConflicts : List Conflict)
    (s : ResearchState) : ResearchState :=
  if s.documents = [] then
    { s with draft := some "# Research Report\n\nNo documents were retrieved. Please try a different query."
             conflicts := []
             sources_metadata := [] }
  else
    { s with draft := some streamed
             conflicts := parsedConflicts
             sources_metadata := s.documents.map fun d =>
               { url := d.source, title := d.title
                 source_type := d.source_type
                 credibility_score := d.credibility_score } }

/-! Critic stage: src/agents/critic.py. -/

/-- The parsed JSON object returned by the critic model, read with data.get
and defaults in critic_node lines 87-95. -/
structure CritiqueJson where
  needs_refinement : Option Bool := none
  overall_score : Option ℚ := none
  gaps : Option (List String) := none
  diversity_issues : Option (List String) := none
  outdated_concerns : Option (List String) := none
  suggestions : Option (List String) := none
  summary : Option String := none
deriving DecidableEq

/-- Embeds the parse-failure default of critic_node, line 85: accept the
draft as is with score 0.7 and no refinement. -/
def criticFallbackData : CritiqueJson :=
  { needs_refinement := some false
    overall_score := some (7/10)
    gaps := some []
    diversity_issues := some []
    outdated_concerns := some []
    suggestions := some []
    summary := some "Could not evaluate — accepting draft as-is." }

/-- Embeds the Critique construction of critic_node, lines 81-99: the parsed
JSON (or the fallback data when json.loads raised) with field defaults,
then the hard override that forces needs_refinement to false once
iteration has reached max_iterations. -/
def criticCritique (parsed : Option CritiqueJson) (iteration maxIterations : Nat) :
    Critique :=
  let data := match parsed with
    | some d => d
    | none => criticFallbackData
  let critique : Critique :=
    { needs_refinement := data.needs_refinement.getD false
      overall_score := data.overall_score.getD (7/10)
      gaps := data.gaps.getD []
      diversity_issues := data.diversity_issues.getD []
      outdated_concerns := data.outdated_concerns.getD []
      suggestions := data.suggestions.getD []
      summary := data.summary.getD "" }
  if maxIterations ≤ iteration then
    { critique with needs_refinement := false }
  else critique

/-- Embeds the state update of critic_node, src/agents/critic.py lines
47-122: reads draft (default the empty string), iteration (default 1) and
max_iterations (default 3), stores the critique, and sets final_report from
the current draft exactly when the critique does not request refinement. -/
def critic_node (parsed : Option CritiqueJson) (s : ResearchState) :
    ResearchState :=
  let draft := s.draft.getD ""
  let iteration := s.iteration.getD 1
  let maxIterations := s.maxIterations.getD 3
  let critique := criticCritique parsed iteration maxIterations
  let s1 := { s with critique := some critique }
  if critique.needs_refinement then s1
  else { s1 with finalReport := some draft }

/-! Orchestrator routing and the pipeline loop: src/core/graph.py. -/

/-- Conditional edge targets out of the critic node. -/
inductive Route where
  | planner
  | finished
deriving DecidableEq

/-- Embeds _should_continue from src/core/graph.py lines 25-36: loop back to
the planner exactly when a critique is present, it requests refinement, and
iteration (default 1) is below max_iterations (default 3); otherwise end. -/
def _should_continue (s : ResearchState) : Route :=
  match s.critique with
  | some critique =>
    if critique.needs_refinement then
      if s.iteration.getD 1 < s.maxIterations.getD 3 then Route.planner
      else Route.finished
    else Route.finished
  | none => Route.finished

/-- The nondeterministic inputs of one cycle of the graph: what the planner
model parse produced, the tool environment, the streamed synthesizer text
with its parsed conflicts, and what the critic model parse produced. -/
structure CycleInput where
  plannerParsed : Option (List RawPlanItem) := none
  env : ToolEnv
  streamed : String := ""
  parsedConflicts : List Conflict := []
  criticParsed : Option CritiqueJson := none

/-- One pass through the graph built in src/core/graph.py lines 39-53:
planner, then worker, then synthesizer, then critic. -/
def runCycle (inp : CycleInput) (s : ResearchState) : ResearchState :=
  critic_node inp.criticParsed
    (synthesizer_node inp.streamed inp.parsedConflicts
      (applyWorker inp.env (planner_node inp.plannerParsed s)))

/-- The loop of the compiled graph: run a cycle, then follow the conditional
edge from the critic; the list of cycle inputs bounds the number of model
interactions available. -/
def runPipeline (inputs : List CycleInput) (s : ResearchState) : ResearchState :=
  match inputs with
  | [] => s
  | inp :: rest =>
    let s1 := runCycle inp s
    match _should_continue s1 with
    | Route.planner => runPipeline rest s1
    | Route.finished => s1

/-- Every state observed at a critic boundary (after each cycle) along the
run of the pipeline. -/
def pipelineTrace (inputs : List CycleInput) (s : ResearchState) :
    List ResearchState :=
  match inputs with
  | [] => []
  | inp :: rest =>
    let s1 := runCycle inp s
    s1 :: (match _should_continue s1 with
           | Route.planner => pipelineTrace rest s1
           | Route.finished => [])

/-- Embeds the initial state built by _run_research_agent,
src/api/routes.py lines 285-299: iteration starts at 0, draft and
final_report start as the empty string, and no send_event key is placed in
the state (the callback goes into the ContextVar instead). -/
def initialState (query task_id thread_id thread_item_id : String)
    (max_iterations : Nat) : ResearchState :=
  { query := query
    task_id := task_id
    thread_id := thread_id
    thread_item_id := thread_item_id
    plan := []
    documents := []
    draft := some ""
    conflicts := []
    sources_metadata := []
    critique := none
    iteration := some 0
    maxIterations := some max_iterations
    finalReport := some ""
    sendEventKey := none }

/-- Embeds the validation bounds of ResearchRequest.max_iterations from
src/api/schemas/requests.py: ge 1, le 10. -/
def validMaxIterations (max_iterations : Nat) : Prop :=
  1 ≤ max_iterations ∧ max_iterations ≤ 10

/-! Structural lemmas about the stage functions. -/

theorem planner_node_iteration (parsed : Option (List RawPlanItem)) (s : ResearchState) :
    (planner_node parsed s).iteration = some (s.iteration.getD 0 + 1) := rfl

theorem planner_node_maxIterations (parsed : Option (List RawPlanItem)) (s : ResearchState) :
    (planner_node parsed s).maxIterations = s.maxIterations := rfl

theorem applyWorker_iteration (env : ToolEnv) (s : ResearchState) :
    (applyWorker env s).iteration = s.iteration := rfl

theorem applyWorker_maxIterations (env : ToolEnv) (s : ResearchState) :
    (applyWorker env s).maxIterations = s.maxIterations := rfl

theorem synthesizer_node_iteration (streamed : String) (cs : List Conflict)
    (s : ResearchState) : (synthesizer_node streamed cs s).iteration = s.iteration := by
  simp only [synthesizer_node]
  split <;> rfl

theorem synthesizer_node_maxIterations (streamed : String) (cs : List Conflict)
    (s : ResearchState) :
    (synthesizer_node streamed cs s).maxIterations = s.maxIterations := by
  simp only [synthesizer_node]
  split <;> rfl

theorem critic_node_iteration (parsed : Option CritiqueJson) (s : ResearchState) :
    (critic_node parsed s).iteration = s.iteration := by
  simp only [critic_node]
  split <;> rfl

theorem critic_node_maxIterations (parsed : Option CritiqueJson) (s : ResearchState) :
    (critic_node parsed s).maxIterations = s.maxIterations := by
  simp only [critic_node]
  split <;> rfl

theorem critic_node_critique (parsed : Option CritiqueJson) (s : ResearchState) :
    (critic_node parsed s).critique =
      some (criticCritique parsed (s.iteration.getD 1) (s.maxIterations.getD 3)) := by
  simp only [critic_node]
  split <;> rfl

theorem critic_node_finalReport_of_not_needs (parsed : Option CritiqueJson)
    (s : ResearchState)
    (h : (criticCritique parsed (s.iteration.getD 1) (s.maxIterations.getD 3)).needs_refinement = false) :
    (critic_node parsed s).finalReport = some (s.draft.getD "") := by
  simp only [critic_node]
  rw [if_neg (by simp [h])]

theorem criticCritique_at_cap (parsed : Option CritiqueJson) (i m : Nat) (h : m ≤ i) :
    (criticCritique parsed i m).needs_refinement = false := by
  simp only [criticCritique]
  rw [if_pos h]

theorem criticCritique_needs_lt (parsed : Option CritiqueJson) (i m : Nat)
    (h : (criticCritique parsed i m).needs_refinement = true) : i < m := by
  by_contra hlt
  rw [Nat.not_lt] at hlt
  rw [criticCritique_at_cap parsed i m hlt] at h
  exact Bool.false_ne_true h

theorem runCycle_iteration (inp : CycleInput) (s : ResearchState) :
    (runCycle inp s).iteration = some (s.iteration.getD 0 + 1) := by
  simp only [runCycle, critic_node_iteration, synthesizer_node_iteration,
    applyWorker_iteration, planner_node_iteration]

theorem runCycle_maxIterations (inp : CycleInput) (s : ResearchState) :
    (runCycle inp s).maxIterations = s.maxIterations := by
  simp only [runCycle, critic_node_maxIterations, synthesizer_node_maxIterations,
    applyWorker_maxIterations, planner_node_maxIterations]

theorem _should_continue_eq_planner_iff (s : ResearchState) :
    _should_continue s = Route.planner ↔
      (s.critique.map Critique.needs_refinement = some true ∧
        s.iteration.getD 1 < s.maxIterations.getD 3) := by
  cases hq : s.critique with
  | none => simp [_should_continue, hq]
  | some c =>
    simp only [_should_continue, hq, Option.map_some']
    by_cases hn : c.needs_refinement <;>
      by_cases hi : s.iteration.getD 1 < s.maxIterations.getD 3 <;>
        simp [hn, hi]

theorem pipelineTrace_iteration_le (inputs : List CycleInput) :
    ∀ (s : ResearchState) (i m : Nat), s.iteration = some i →
      s.maxIterations = some m → i < m →
      ∀ t ∈ pipelineTrace inputs s, t.iteration.getD 0 ≤ m := by
  induction inputs with
  | nil =>
    intro s i m _ _ _ t ht
    simp [pipelineTrace] at ht
  | cons inp rest ih =>
    intro s i m hi hm hlt t ht
    have hiter : (runCycle inp s).iteration = some (i + 1) := by
      rw [runCycle_iteration, hi]
      rfl
    have hmax : (runCycle inp s).maxIterations = some m := by
      rw [runCycle_maxIterations, hm]
    simp only [pipelineTrace] at ht
    rcases List.mem_cons.mp ht with h1 | h2
    · subst h1
      simp [hiter, Nat.succ_le_of_lt hlt]
    · cases hroute : _should_continue (runCycle inp s) with
      | planner =>
        rw [hroute] at h2
        have hcond := (_should_continue_eq_planner_iff _).mp hroute
        have hlt2 : i + 1 < m := by
          have := hcond.2
          rwa [hiter, hmax] at this
        exact ih (runCycle inp s) (i + 1) m hiter hmax hlt2 t h2
      | finished =>
        rw [hroute] at h2
        simp at h2

/-! Claim theorems for the loop control. -/

/-- C1: for every Run started from the public request path (so with a
validated iteration cap), the iteration counter observed at every critic
boundary never exceeds max_iterations; and whenever iteration has reached
the cap, the critic stage forces needs_refinement to false regardless of
the parsed critique and sets final_report from the current draft. -/
theorem run_iteration_never_exceeds_cap (query task_id thread_id thread_item_id : String)
    (max_iterations : Nat) (hvalid : validMaxIterations max_iterations)
    (inputs : List CycleInput) :
    (∀ t ∈ pipelineTrace inputs
        (initialState query task_id thread_id thread_item_id max_iterations),
        t.iteration.getD 0 ≤ max_iterations) ∧
    (∀ (s : ResearchState) (parsed : Option CritiqueJson),
        s.maxIterations.getD 3 ≤ s.iteration.getD 1 →
          (critic_node parsed s).critique.map Critique.needs_refinement = some false ∧
          (critic_node parsed s).finalReport = some (s.draft.getD "")) := by
  constructor
  · exact pipelineTrace_iteration_le inputs _ 0 max_iterations rfl rfl hvalid.1
  · intro s parsed hcap
    have hfalse := criticCritique_at_cap parsed (s.iteration.getD 1)
      (s.maxIterations.getD 3) hcap
    refine ⟨?_, critic_node_finalReport_of_not_needs parsed s hfalse⟩
    rw [critic_node_critique, Option.map_some', hfalse]

/-- Shared concrete tool environment for witnesses: every tool returns one
academic document. -/
def sampleEnv : ToolEnv := fun _ _ =>
  ToolOutcome.ok [{ title := some "Doc"
                    content := some "body"
                    source := some "https://example.org/a"
                    source_type := some "academic" }]

/-- Shared concrete cycle input for witnesses: planner and critic responses
fail to parse, the synthesizer streams an empty draft. -/
def sampleCycle : CycleInput := { env := sampleEnv }

/-- Shared concrete state sitting at the iteration cap. -/
def cappedState : ResearchState :=
  { query := "q", draft := some "d", iteration := some 3, maxIterations := some 3 }

/-- Witness for C1 at a concrete run with cap 1 and at a concrete capped
state. -/
theorem run_iteration_never_exceeds_cap_witness :
    (runCycle sampleCycle (initialState "q" "t" "ti" "tii" 1)).iteration.getD 0 ≤ 1 ∧
    (critic_node none cappedState).critique.map Critique.needs_refinement = some false ∧
    (critic_node none cappedState).finalReport = some "d" := by
  have h := run_iteration_never_exceeds_cap "q" "t" "ti" "tii" 1
    (by exact ⟨by decide, by decide⟩) [sampleCycle]
  refine ⟨h.1 _ (List.Mem.head _), (h.2 cappedState none (by decide)).1, ?_⟩
  have h2 := (h.2 cappedState none (by decide)).2
  simpa using h2

/-- C2: after every critic step, the run loops back to planning exactly when
the stored critique requests refinement and the iteration counter is below
the cap; in every other case the conditional edge ends the run and
final_report has been set from the latest draft. -/
theorem critic_routing_iff (s : ResearchState) (parsed : Option CritiqueJson) :
    (_should_continue (critic_node parsed s) = Route.planner ↔
      ((critic_node parsed s).critique.map Critique.needs_refinement = some true ∧
        (critic_node parsed s).iteration.getD 1 <
          (critic_node parsed s).maxIterations.getD 3)) ∧
    (_should_continue (critic_node parsed s) = Route.finished →
      (critic_node parsed s).finalReport = some (s.draft.getD "")) := by
  constructor
  · exact _should_continue_eq_planner_iff _
  · intro hfin
    by_cases hn : (criticCritique parsed (s.iteration.getD 1)
        (s.maxIterations.getD 3)).needs_refinement
    · exfalso
      have hlt := criticCritique_needs_lt parsed _ _ hn
      have hplanner : _should_continue (critic_node parsed s) = Route.planner := by
        rw [_should_continue_eq_planner_iff]
        refine ⟨?_, ?_⟩
        · rw [critic_node_critique, Option.map_some', hn]
        · rwa [critic_node_iteration, critic_node_maxIterations]
      rw [hplanner] at hfin
      exact Route.noConfusion hfin
    · exact critic_node_finalReport_of_not_needs parsed s (by simpa using hn)

/-- Witness for C2 at a concrete critic outcome that accepts the draft. -/
theorem critic_routing_iff_witness :
    _should_continue (critic_node none cappedState) = Route.finished ∧
    (critic_node none cappedState).finalReport = some "d" := by
  have h := critic_routing_iff cappedState none
  have hfin : _should_continue (critic_node none cappedState) = Route.finished := by
    decide
  exact ⟨hfin, by simpa using h.2 hfin⟩

/-- Computes the critique produced by a critic invocation whose model
response failed to parse as JSON. -/
theorem criticCritique_none (i m : Nat) :
    criticCritique none i m =
      { needs_refinement := false
        overall_score := 7/10
        gaps := []
        diversity_issues := []
        outdated_concerns := []
        suggestions := []
        summary := "Could not evaluate — accepting draft as-is." } := by
  simp only [criticCritique, criticFallbackData]
  split <;> rfl

/-- C9: a critic invocation whose model response is not parseable as JSON
does not raise; it stores the default critique with needs_refinement false
and overall_score 0.7, sets final_report from the current draft, and the
conditional edge then ends the run (so this cause alone never yields a
failed run). -/
theorem critic_malformed_accepts (s : ResearchState) :
    (critic_node none s).critique.map Critique.needs_refinement = some false ∧
    (critic_node none s).critique.map Critique.overall_score = some (7/10) ∧
    (critic_node none s).finalReport = some (s.draft.getD "") ∧
    _should_continue (critic_node none s) = Route.finished := by
  have hqn : criticCritique none (s.iteration.getD 1) (s.maxIterations.getD 3) =
      { needs_refinement := false
        overall_score := 7/10
        gaps := []
        diversity_issues := []
        outdated_concerns := []
        suggestions := []
        summary := "Could not evaluate — accepting draft as-is." } :=
    criticCritique_none _ _
  have hneeds : (criticCritique none (s.iteration.getD 1)
      (s.maxIterations.getD 3)).needs_refinement = false := by
    rw [hqn]
  refine ⟨?_, ?_, critic_node_finalReport_of_not_needs none s hneeds, ?_⟩
  · rw [critic_node_critique, Option.map_some', hneeds]
  · rw [critic_node_critique, Option.map_some', hqn]
  · cases hroute : _should_continue (critic_node none s) with
    | planner =>
      exfalso
      have hcond := (_should_continue_eq_planner_iff _).mp hroute
      rw [critic_node_critique, Option.map_some', hneeds] at hcond
      exact Bool.false_ne_true (Option.some_injective _ hcond.1)
    | finished => rfl

/-! Claims about the planner and the retriever units. -/

/-- A parsed planner response with a single academic item. -/
def singleAcademicItem : RawPlanItem :=
  { query := some "x", source_type := some "academic" }

/-- Counterexample to C4: a planner invocation whose model response parses
to a single-item array yields a one-element plan, so the output does not
contain 3 to 5 SubQuery items and no correction attempt happens. -/
theorem planner_size_floor_counterexample :
    (plannerSubQueries "q" (some [singleAcademicItem])).length = 1 ∧
    ¬ 3 ≤ (plannerSubQueries "q" (some [singleAcademicItem])).length := by
  decide

/-- C4 amended: the planner does not enforce the 3-to-5 size or the
two-category diversity floor and makes no correction attempts; it forwards
whatever list the model response parses to, one SubQuery per parsed item
with field defaults, and only on a JSON parse failure does it fall back to
a single general-category SubQuery echoing the raw query. -/
theorem planner_passthrough_and_fallback (query : String) (items : List RawPlanItem) :
    (plannerSubQueries query (some items)).length = items.length ∧
    plannerSubQueries query none =
      [{ query := query, source_type := "general"
         rationale := "Fallback to original query" }] := by
  constructor
  · simp [plannerSubQueries]
  · rfl

/-- C5: within one retriever unit, the fallback tool is invoked exactly
once when the primary tool produced the empty list (which includes a raised
exception or a non-list response, both converted to the empty list locally
by _execute_tool), and never otherwise. -/
theorem fallback_exactly_once_iff_primary_empty (env : ToolEnv)
    (sendEvent : Option EventSink) (i : Nat) (sq : SubQuery) :
    (runWorkerUnit env sendEvent i sq).fallback_calls =
      (if _execute_tool (env (sourceTools sq.source_type).1 sq.query) = [] then 1 else 0) ∧
    _execute_tool ToolOutcome.raises = [] ∧
    _execute_tool ToolOutcome.nonList = [] := by
  refine ⟨?_, rfl, rfl⟩
  by_cases h : _execute_tool (env (sourceTools sq.source_type).1 sq.query) = [] <;>
    simp [runWorkerUnit, h]

/-- Witness for C5 at a concrete unit whose primary tool raises. -/
def raisingEnv : ToolEnv := fun tool _ =>
  match tool with
  | Tool.arxiv_search => ToolOutcome.raises
  | _ => ToolOutcome.ok []

theorem fallback_exactly_once_iff_primary_empty_witness :
    (runWorkerUnit raisingEnv none 0
      { query := "x", source_type := "academic" }).fallback_calls = 1 := by
  have h := fallback_exactly_once_iff_primary_empty raisingEnv none 0
    { query := "x", source_type := "academic" }
  rw [h.1]
  decide

/-- C6: the credibility score attached to a retrieved document is computed
solely from the effective evidence category of the raw result whenever the
raw result declares one, never from the category requested by the
sub-query, and the score table is academic 0.85, reference 0.75, news 0.60,
general 0.50, anything else 0.50. -/
theorem credibility_from_effective_category (requested requested2 : String)
    (r : RawResult) (c : String) (h : r.source_type = some c) :
    (mkRetrievedDocument requested r).credibility_score = _estimate_credibility c ∧
    (mkRetrievedDocument requested r).credibility_score =
      (mkRetrievedDocument requested2 r).credibility_score ∧
    _estimate_credibility "academic" = 85/100 ∧
    _estimate_credibility "reference" = 75/100 ∧
    _estimate_credibility "news" = 60/100 ∧
    _estimate_credibility "general" = 50/100 ∧
    (∀ c2, c2 ∉ (["academic", "reference", "news", "general"] : List String) →
      _estimate_credibility c2 = 50/100) := by
  refine ⟨by simp [mkRetrievedDocument, h], by simp [mkRetrievedDocument, h],
    by simp [_estimate_credibility], by simp [_estimate_credibility],
    by simp [_estimate_credibility], by simp [_estimate_credibility], ?_⟩
  intro c2 hc2
  simp only [List.mem_cons, List.not_mem_nil, or_false] at hc2
  push_neg at hc2
  obtain ⟨h1, h2, h3, h4⟩ := hc2
  simp [_estimate_credibility, h1, h2, h3, h4]

/-- A raw result that declares its own news category. -/
def newsRaw : RawResult := { source_type := some "news" }

/-- Witness for C6: an academic request answered by a news-typed result
scores 0.60. -/
theorem credibility_from_effective_category_witness :
    (mkRetrievedDocument "academic" newsRaw).credibility_score = 60/100 := by
  have h := credibility_from_effective_category "academic" "reference" newsRaw "news" rfl
  rw [h.1]
  exact h.2.2.2.2.1

/-! Claim about the document merge: the documents channel of ResearchState
is Annotated with operator.add (src/core/state.py line 94). -/

/-- operator.add on the documents channel: list concatenation. -/
def documentsReducer (l r : List RetrievedDocument) : List RetrievedDocument :=
  l ++ r

/-- The final document collection obtained by folding the per-unit document
lists into the state in completion order. -/
def mergeDocuments (chunks : List (List RetrievedDocument)) :
    List RetrievedDocument :=
  chunks.foldl documentsReducer []

theorem foldl_documentsReducer (chunks : List (List RetrievedDocument)) :
    ∀ acc, chunks.foldl documentsReducer acc = acc ++ chunks.flatten := by
  induction chunks with
  | nil => intro acc; simp [List.foldl]
  | cons c cs ih => intro acc; simp [List.foldl, documentsReducer, ih]

theorem flatten_perm_of_perm {α : Type} {L1 L2 : List (List α)}
    (h : L1.Perm L2) : L1.flatten.Perm L2.flatten := by
  induction h with
  | nil => exact List.Perm.refl _
  | cons x h ih => simpa using ih.append_left x
  | swap x y l =>
    simp only [List.flatten_cons]
    rw [← List.append_assoc y x l.flatten, ← List.append_assoc x y l.flatten]
    exact List.perm_append_comm.append_right l.flatten
  | trans h1 h2 ih1 ih2 => exact ih1.trans ih2

/-- C7: the document merge is an associative concatenation, and the
membership (as a multiset) of the merged collection is invariant under
permutation of the per-unit lists, so completion order never changes the
final membership. -/
theorem merge_associative_and_order_insensitive :
    (∀ a b c : List RetrievedDocument,
        documentsReducer (documentsReducer a b) c =
          documentsReducer a (documentsReducer b c)) ∧
    (∀ L1 L2 : List (List RetrievedDocument), L1.Perm L2 →
        (mergeDocuments L1 : Multiset RetrievedDocument) =
          (mergeDocuments L2 : Multiset RetrievedDocument)) := by
  constructor
  · intro a b c
    simp [documentsReducer, List.append_assoc]
  · intro L1 L2 h
    have h1 : mergeDocuments L1 = L1.flatten := by
      simpa using foldl_documentsReducer L1 []
    have h2 : mergeDocuments L2 = L2.flatten := by
      simpa using foldl_documentsReducer L2 []
    rw [h1, h2]
    exact Quot.sound (flatten_perm_of_perm h)

/-- Two concrete documents for the merge witness. -/
def docA : RetrievedDocument :=
  { title := "A", content := "", source := "a", source_type := "academic"
    credibility_score := 1 }

def docB : RetrievedDocument :=
  { title := "B", content := "", source := "b", source_type := "news"
    credibility_score := 0 }

/-- Witness for C7 at two permuted unit outputs. -/
theorem merge_associative_and_order_insensitive_witness :
    documentsReducer (documentsReducer [docA] [docB]) [] =
      documentsReducer [docA] (documentsReducer [docB] []) ∧
    (mergeDocuments [[docA], [docB]] : Multiset RetrievedDocument) =
      (mergeDocuments [[docB], [docA]] : Multiset RetrievedDocument) := by
  exact ⟨merge_associative_and_order_insensitive.1 [docA] [docB] [],
    merge_associative_and_order_insensitive.2 [[docA], [docB]] [[docB], [docA]]
      (by decide)⟩

/-! Claim C3: event delivery from the retriever on the public request path. -/

/-- The state with which worker_node runs in a public-path run: the fields
set by _run_research_agent (src/api/routes.py lines 285-299) with the plan
produced by the planner; no send_event key is in the state, because the
public path stores the callback only in the ContextVar via set_send_event
and no node reads that ContextVar. -/
def publicWorkerState : ResearchState :=
  { initialState "vitamin question" "task" "th" "thi" 3 with
      plan := [{ query := "vitamin question", source_type := "general" }] }

/-- C3 (refuted by the code): on the public request path the callback is
registered in the ContextVar, the state carries no send_event key, and the
worker therefore emits no events at all — in particular no sources event —
even though its only unit completes with a non-empty document list. -/
theorem sources_events_lost_on_public_path :
    get_send_event (set_send_event (some { id := 7 }) { sendEventVar := none }) =
      some { id := 7 } ∧
    publicWorkerState.sendEventKey = none ∧
    (worker_node sampleEnv publicWorkerState).1.length = 1 ∧
    (worker_node sampleEnv publicWorkerState).2 = [] := by
  exact ⟨rfl, rfl, rfl, rfl⟩

/-! Checkpoint serialization: src/core/checkpoint_serde.py. -/

/-- A Python value as seen by the checkpoint serializer: atoms, callables
(function objects), lists, tuples, and dicts. Every dict reachable from a
checkpointed OrchestrationState is string-keyed, so dict keys are embedded
as strings. -/
inductive PyVal where
  | callable : PyVal
  | pyNone : PyVal
  | pyBool : Bool → PyVal
  | pyInt : Int → PyVal
  | pyNum : ℚ → PyVal
  | pyStr : String → PyVal
  | pyList : List PyVal → PyVal
  | pyTuple : List PyVal → PyVal
  | pyDict : List (String × PyVal) → PyVal

/-- The callable test of Python: only function objects are callable among
the embedded values. -/
def isCallable : PyVal → Bool
  | .callable => true
  | _ => false

mutual

/-- Embeds _strip_callables from src/core/checkpoint_serde.py lines 17-27:
a callable becomes None; dict values that are callable are dropped and the
remaining values stripped recursively; list and tuple elements are stripped
recursively; everything else is returned unchanged. -/
def _strip_callables : PyVal → PyVal
  | .callable => .pyNone
  | .pyDict kvs => .pyDict (stripDictItems kvs)
  | .pyList xs => .pyList (stripElems xs)
  | .pyTuple xs => .pyTuple (stripElems xs)
  | v => v

/-- Element-wise strip of a list or tuple body. -/
def stripElems : List PyVal → List PyVal
  | [] => []
  | x :: xs => _strip_callables x :: stripElems xs

/-- The dict comprehension of _strip_callables: keep only the items with a
non-callable value, stripping each kept value. -/
def stripDictItems : List (String × PyVal) → List (String × PyVal)
  | [] => []
  | (k, v) :: rest =>
    if isCallable v then stripDictItems rest
    else (k, _strip_callables v) :: stripDictItems rest

end

mutual

/-- Whether a callable occurs anywhere inside a value (what makes msgpack
serialization fail). -/
def hasCallable : PyVal → Bool
  | .callable => true
  | .pyDict kvs => hasCallableDict kvs
  | .pyList xs => hasCallableElems xs
  | .pyTuple xs => hasCallableElems xs
  | _ => false

/-- Whether a callable occurs in any element. -/
def hasCallableElems : List PyVal → Bool
  | [] => false
  | x :: xs => hasCallable x || hasCallableElems xs

/-- Whether a callable occurs in any dict value. -/
def hasCallableDict : List (String × PyVal) → Bool
  | [] => false
  | (_, v) :: rest => hasCallable v || hasCallableDict rest

end

/-- Model of the external JsonPlusSerializer, per the module docstring of
src/core/checkpoint_serde.py and the checkpoint contract of the design:
msgpack serialization raises when a function occurs anywhere in the value
(modelled as none) and otherwise the serialize-then-deserialize composition
is faithful. -/
def jsonPlusRoundTrip (v : PyVal) : Option PyVal :=
  if hasCallable v then none else some v

namespace SafeCheckpointSerde

/-- dumps_typed of SafeCheckpointSerde, src/core/checkpoint_serde.py lines
36-38: strip callables, then hand to the underlying serializer. -/
def dumps_typed (v : PyVal) : Option PyVal :=
  jsonPlusRoundTrip (_strip_callables v)

/-- loads_typed, lines 40-42: the underlying deserialization, unchanged. -/
def loads_typed (v : PyVal) : PyVal := v

/-- Persisting a checkpoint and reloading it. -/
def roundTrip (v : PyVal) : Option PyVal :=
  (dumps_typed v).map loads_typed

end SafeCheckpointSerde

theorem hasCallable_of_isCallable (v : PyVal) (h : isCallable v = true) :
    hasCallable v = true := by
  cases v <;> simp_all [isCallable, hasCallable]

theorem hasCallable_pyStr (s : String) : hasCallable (.pyStr s) = false := rfl

theorem hasCallable_pyNum (q : ℚ) : hasCallable (.pyNum q) = false := rfl

theorem hasCallable_pyBool (b : Bool) : hasCallable (.pyBool b) = false := rfl

theorem hasCallable_pyInt (n : Int) : hasCallable (.pyInt n) = false := rfl

theorem hasCallable_pyList (xs : List PyVal) :
    hasCallable (.pyList xs) = hasCallableElems xs := rfl

theorem hasCallable_pyDict (kvs : List (String × PyVal)) :
    hasCallable (.pyDict kvs) = hasCallableDict kvs := rfl

mutual

theorem hasCallable_strip (v : PyVal) : hasCallable (_strip_callables v) = false := by
  cases v with
  | callable => rfl
  | pyDict kvs => simpa [_strip_callables, hasCallable] using hasCallableDict_strip kvs
  | pyList xs => simpa [_strip_callables, hasCallable] using hasCallableElems_strip xs
  | pyTuple xs => simpa [_strip_callables, hasCallable] using hasCallableElems_strip xs
  | pyNone => rfl
  | pyBool b => rfl
  | pyInt n => rfl
  | pyNum q => rfl
  | pyStr s => rfl

theorem hasCallableElems_strip (xs : List PyVal) :
    hasCallableElems (stripElems xs) = false := by
  cases xs with
  | nil => rfl
  | cons x xs =>
    simp [stripElems, hasCallableElems, hasCallable_strip x, hasCallableElems_strip xs]

theorem hasCallableDict_strip (kvs : List (String × PyVal)) :
    hasCallableDict (stripDictItems kvs) = false := by
  cases kvs with
  | nil => rfl
  | cons kv rest =>
    obtain ⟨k, v⟩ := kv
    by_cases h : isCallable v = true
    · simpa [stripDictItems, h] using hasCallableDict_strip rest
    · simp only [stripDictItems]
      rw [if_neg (by simp [h])]
      simp [hasCallableDict, hasCallable_strip v, hasCallableDict_strip rest]

end

mutual

theorem strip_id (v : PyVal) (h : hasCallable v = false) : _strip_callables v = v := by
  cases v with
  | callable => simp [hasCallable] at h
  | pyDict kvs =>
    simp only [hasCallable] at h
    simp [_strip_callables, stripDictItems_id kvs h]
  | pyList xs =>
    simp only [hasCallable] at h
    simp [_strip_callables, stripElems_id xs h]
  | pyTuple xs =>
    simp only [hasCallable] at h
    simp [_strip_callables, stripElems_id xs h]
  | pyNone => rfl
  | pyBool b => rfl
  | pyInt n => rfl
  | pyNum q => rfl
  | pyStr s => rfl

theorem stripElems_id (xs : List PyVal) (h : hasCallableElems xs = false) :
    stripElems xs = xs := by
  cases xs with
  | nil => rfl
  | cons x xs =>
    simp only [hasCallableElems, Bool.or_eq_false_iff] at h
    simp [stripElems, strip_id x h.1, stripElems_id xs h.2]

theorem stripDictItems_id (kvs : List (String × PyVal))
    (h : hasCallableDict kvs = false) : stripDictItems kvs = kvs := by
  cases kvs with
  | nil => rfl
  | cons kv rest =>
    obtain ⟨k, v⟩ := kv
    simp only [hasCallableDict, Bool.or_eq_false_iff] at h
    have hv : isCallable v = false := by
      by_contra hc
      rw [Bool.not_eq_false] at hc
      rw [hasCallable_of_isCallable v hc] at h
      simp at h
    simp only [stripDictItems]
    rw [if_neg (by simp [hv])]
    simp [strip_id v h.1, stripDictItems_id rest h.2]

end

/-! Encoding of the checkpointed OrchestrationState as a Python value. -/

/-- Encodes a string-keyed metadata dict. -/
def encodeMetadata (m : List (String × String)) : PyVal :=
  .pyDict (m.map fun kv => (kv.1, .pyStr kv.2))

/-- Encodes a SubQuery dataclass payload. -/
def encodeSubQuery (q : SubQuery) : PyVal :=
  .pyDict [("query", .pyStr q.query), ("source_type", .pyStr q.source_type),
           ("rationale", .pyStr q.rationale)]

/-- Encodes a RetrievedDocument dataclass payload. -/
def encodeDocument (d : RetrievedDocument) : PyVal :=
  .pyDict [("title", .pyStr d.title), ("content", .pyStr d.content),
           ("source", .pyStr d.source), ("source_type", .pyStr d.source_type),
           ("snippet", .pyStr d.snippet),
           ("credibility_score", .pyNum d.credibility_score),
           ("metadata", encodeMetadata d.metadata)]

/-- Encodes a Conflict dataclass payload. -/
def encodeConflict (c : Conflict) : PyVal :=
  .pyDict [("claim_a", .pyStr c.claim_a), ("source_a", .pyStr c.source_a),
           ("claim_b", .pyStr c.claim_b), ("source_b", .pyStr c.source_b),
           ("description", .pyStr c.description), ("resolution", .pyStr c.resolution)]

/-- Encodes a SourceMeta dataclass payload. -/
def encodeSourceMeta (m : SourceMeta) : PyVal :=
  .pyDict [("url", .pyStr m.url), ("title", .pyStr m.title),
           ("source_type", .pyStr m.source_type),
           ("credibility_score", .pyNum m.credibility_score)]

/-- Encodes a Critique dataclass payload. -/
def encodeCritique (c : Critique) : PyVal :=
  .pyDict [("needs_refinement", .pyBool c.needs_refinement),
           ("overall_score", .pyNum c.overall_score),
           ("gaps", .pyList (c.gaps.map .pyStr)),
           ("diversity_issues", .pyList (c.diversity_issues.map .pyStr)),
           ("outdated_concerns", .pyList (c.outdated_concerns.map .pyStr)),
           ("suggestions", .pyList (c.suggestions.map .pyStr)),
           ("summary", .pyStr c.summary)]

/-- Encodes an optional TypedDict entry: present fields yield one item,
absent fields none. -/
def optEntry {α : Type} (key : String) (f : α → PyVal) : Option α → List (String × PyVal)
  | some a => [(key, f a)]
  | none => []

/-- Encodes a ResearchState as the dict that reaches the checkpoint
serializer; an event callback sitting under the send_event key is encoded
as a callable. -/
def encodeState (s : ResearchState) : PyVal :=
  .pyDict
    ([("query", .pyStr s.query), ("task_id", .pyStr s.task_id),
      ("thread_id", .pyStr s.thread_id), ("thread_item_id", .pyStr s.thread_item_id),
      ("plan", .pyList (s.plan.map encodeSubQuery)),
      ("documents", .pyList (s.documents.map encodeDocument)),
      ("conflicts", .pyList (s.conflicts.map encodeConflict)),
      ("sources_metadata", .pyList (s.sources_metadata.map encodeSourceMeta))]
      ++ optEntry "draft" PyVal.pyStr s.draft
      ++ optEntry "critique" encodeCritique s.critique
      ++ optEntry "iteration" (fun n => PyVal.pyInt n) s.iteration
      ++ optEntry "max_iterations" (fun n => PyVal.pyInt n) s.maxIterations
      ++ optEntry "final_report" PyVal.pyStr s.finalReport
      ++ optEntry "_send_event" (fun _ => PyVal.callable) s.sendEventKey)

theorem hasCallableElems_map {α : Type} (f : α → PyVal) (xs : List α)
    (h : ∀ x, hasCallable (f x) = false) :
    hasCallableElems (xs.map f) = false := by
  induction xs with
  | nil => rfl
  | cons x xs ih => simp [hasCallableElems, h x, ih]

theorem hasCallableDict_append (a b : List (String × PyVal)) :
    hasCallableDict (a ++ b) = (hasCallableDict a || hasCallableDict b) := by
  induction a with
  | nil => simp [hasCallableDict]
  | cons kv rest ih =>
    obtain ⟨k, v⟩ := kv
    simp [hasCallableDict, ih, Bool.or_assoc]

theorem hasCallable_encodeMetadata (m : List (String × String)) :
    hasCallable (encodeMetadata m) = false := by
  simp only [encodeMetadata, hasCallable_pyDict]
  induction m with
  | nil => rfl
  | cons kv rest ih => simp [hasCallableDict, hasCallable_pyStr, ih]

theorem hasCallable_encodeSubQuery (q : SubQuery) :
    hasCallable (encodeSubQuery q) = false := by
  simp [encodeSubQuery, hasCallable_pyDict, hasCallableDict, hasCallable_pyStr]

theorem hasCallable_encodeDocument (d : RetrievedDocument) :
    hasCallable (encodeDocument d) = false := by
  simp [encodeDocument, hasCallable_pyDict, hasCallableDict, hasCallable_pyStr,
    hasCallable_pyNum, hasCallable_encodeMetadata]

theorem hasCallable_encodeConflict (c : Conflict) :
    hasCallable (encodeConflict c) = false := by
  simp [encodeConflict, hasCallable_pyDict, hasCallableDict, hasCallable_pyStr]

theorem hasCallable_encodeSourceMeta (m : SourceMeta) :
    hasCallable (encodeSourceMeta m) = false := by
  simp [encodeSourceMeta, hasCallable_pyDict, hasCallableDict, hasCallable_pyStr,
    hasCallable_pyNum]

theorem hasCallable_encodeCritique (c : Critique) :
    hasCallable (encodeCritique c) = false := by
  simp [encodeCritique, hasCallable_pyDict, hasCallableDict, hasCallable_pyStr,
    hasCallable_pyNum, hasCallable_pyBool, hasCallable_pyList,
    hasCallableElems_map PyVal.pyStr _ fun _ => rfl]

theorem hasCallableDict_optEntry_str (key : String) (o : Option String) :
    hasCallableDict (optEntry key PyVal.pyStr o) = false := by
  cases o <;> simp [optEntry, hasCallableDict, hasCallable]

theorem hasCallableDict_optEntry_int (key : String) (o : Option Nat) :
    hasCallableDict (optEntry key (fun n => PyVal.pyInt n) o) = false := by
  cases o <;> simp [optEntry, hasCallableDict, hasCallable]

theorem hasCallableDict_optEntry_critique (key : String) (o : Option Critique) :
    hasCallableDict (optEntry key encodeCritique o) = false := by
  cases o <;> simp [optEntry, hasCallableDict, hasCallable_encodeCritique]

theorem hasCallable_encodeState (s : ResearchState) (h : s.sendEventKey = none) :
    hasCallable (encodeState s) = false := by
  simp only [encodeState, h, hasCallable_pyDict, hasCallableDict_append,
    hasCallableDict_optEntry_str, hasCallableDict_optEntry_int,
    hasCallableDict_optEntry_critique]
  simp [hasCallableDict, hasCallable_pyStr, hasCallable_pyList, optEntry,
    hasCallableElems_map encodeSubQuery _ hasCallable_encodeSubQuery,
    hasCallableElems_map encodeDocument _ hasCallable_encodeDocument,
    hasCallableElems_map encodeConflict _ hasCallable_encodeConflict,
    hasCallableElems_map encodeSourceMeta _ hasCallable_encodeSourceMeta]

/-- C8: the checkpoint round-trip is the identity on every value free of
callables — in particular on the encoding of every state whose send_event
slot is empty, so the reloaded state has the same document collection,
draft and iteration entries — and stripping removes every callable before
the save, so serialization never fails. -/
theorem checkpoint_roundtrip (v : PyVal) (s : ResearchState) :
    (hasCallable v = false → SafeCheckpointSerde.roundTrip v = some v) ∧
    SafeCheckpointSerde.roundTrip v = some (_strip_callables v) ∧
    hasCallable (_strip_callables v) = false ∧
    (s.sendEventKey = none →
      SafeCheckpointSerde.roundTrip (encodeState s) = some (encodeState s)) := by
  have key : ∀ w : PyVal, SafeCheckpointSerde.roundTrip w = some (_strip_callables w) := by
    intro w
    simp [SafeCheckpointSerde.roundTrip, SafeCheckpointSerde.dumps_typed,
      SafeCheckpointSerde.loads_typed, jsonPlusRoundTrip, hasCallable_strip w]
  refine ⟨?_, key v, hasCallable_strip v, ?_⟩
  · intro h
    rw [key v, strip_id v h]
  · intro h
    rw [key (encodeState s), strip_id (encodeState s) (hasCallable_encodeState s h)]

/-- A concrete state for the checkpoint witness. -/
def checkpointSampleState : ResearchState :=
  { query := "q", documents := [docA], draft := some "d", iteration := some 2 }

/-- Witness for C8 on a callable-free atom and on a concrete state. -/
theorem checkpoint_roundtrip_witness :
    SafeCheckpointSerde.roundTrip (PyVal.pyStr "x") = some (PyVal.pyStr "x") ∧
    SafeCheckpointSerde.roundTrip (encodeState checkpointSampleState) =
      some (encodeState checkpointSampleState) := by
  exact ⟨(checkpoint_roundtrip (PyVal.pyStr "x") checkpointSampleState).1 rfl,
    (checkpoint_roundtrip (PyVal.pyStr "x") checkpointSampleState).2.2.2 rfl⟩

end ResearchSynthesis
